import Mathlib

/-!
Shallow embedding of `src/contracts/src/HashedTimelock.ts` (class `HTLCNative`).

The contract stores one HTLC record in its on-chain state fields
(`refundTo`, `receiver`, `hashlock`, `timelock`, `withdrawn`, `refunded`,
`preimage`) plus the contract account's balance.  We model:

* `Field` and `UInt64` values as `Nat` (only equality and order comparisons
  and balance addition occur, so no modular wrap-around is reachable);
* `PublicKey` as `Nat`, with `0` standing for the empty key
  (`PublicKey.isEmpty` in snarkyjs);
* the `Secret` circuit value as a structure holding its `value : Field[]`
  array, as in the source;
* `Poseidon.hash` as an explicit function parameter `poseidonHash`
  (the hash primitive is an external collaborator; the contract only
  compares its output for equality);
* each snarkyjs assertion (`assertEquals`, `assertTrue`,
  `assertGreaterThan`, ...) as an `Except` error: a failed assertion
  aborts the whole transaction, leaving the on-chain state unchanged, so a
  method returns `Except HTLCError (ContractState × ret)` where `.ok`
  carries the successor state and `.error` means the state is untouched;
* the ambient transaction context (`this.sender`, `this.network.timestamp`)
  as explicit `sender` / `now` arguments.

The `this.account.balance.get / assertEquals` pairs are data-consistency
preconditions between proving and verification; with a single honest view of
the state they always hold, so they introduce no error case here.
-/

/-- `Secret` circuit value: a preimage as an array of field elements
(`@arrayProp(Field, 1) value`). -/
structure Secret where
  value : List Nat
deriving DecidableEq

/-- The on-chain state of one `HTLCNative` contract account: the seven
`@state` fields of the class plus the contract account's balance. -/
structure ContractState where
  refundTo : Nat
  receiver : Nat
  hashlock : Nat
  timelock : Nat
  withdrawn : Bool
  refunded : Bool
  preimage : Secret
  balance : Nat
deriving DecidableEq

/-- State of a freshly deployed contract account: every field zeroed
(the snarkyjs default), the empty public key being `0`. -/
def initState : ContractState :=
  { refundTo := 0, receiver := 0, hashlock := 0, timelock := 0,
    withdrawn := false, refunded := false, preimage := ⟨[0]⟩, balance := 0 }

/-- One constructor per distinct assertion failure in the source, named
after the assertion's message text. -/
inductive HTLCError
  /-- `assertIsNew`: `receiver.isEmpty().assertTrue()` failed. -/
  | ContractNotNew
  /-- `assertIsNotNew`: `receiver.isEmpty().assertFalse()` failed. -/
  | ContractIsNew
  /-- `modifierFundsSent`: "amount must be > 0". -/
  | InvalidAmount
  /-- `modifierFutureTimelock`: "timelock time must be in the future". -/
  | TimelockMustBeFuture
  /-- `modifierHashlockMatches`: "hashlock hash does not match". -/
  | HashlockMismatch
  /-- `modifierContractExists`: "contractId does not exist". -/
  | ContractNotFound
  /-- `modifierWithdrawable` / `modifierRefundable`: `refundTo.assertEquals(this.sender)` failed. -/
  | SenderMismatch
  /-- `modifierWithdrawable` / `modifierRefundable`: "refundable: already withdrawn". -/
  | AlreadyWithdrawn
  /-- `modifierRefundable`: "refundable: already refunded". -/
  | AlreadyRefunded
  /-- `modifierWithdrawable` / `modifierRefundable`: "refundable: timelock not yet passed". -/
  | TimelockNotPassed
deriving DecidableEq

/-- `modifierFundsSent(amount)`: `amount.assertGreaterThan(UInt64.from(0))`. -/
def modifierFundsSent (amount : Nat) : Except HTLCError Unit :=
  if 0 < amount then .ok () else .error .InvalidAmount

/-- `modifierFutureTimelock(time)`: reads the network timestamp and runs
`time.assertGreaterThan(timestamp)`. -/
def modifierFutureTimelock (time now : Nat) : Except HTLCError Unit :=
  if now < time then .ok () else .error .TimelockMustBeFuture

/-- `modifierHashlockMatches(contractId, preimage)`: asserts
`hashlock == Poseidon.hash(preimage.value)`. -/
def modifierHashlockMatches (poseidonHash : List Nat → Nat) (hashlock : Nat)
    (preimage : Secret) : Except HTLCError Unit :=
  if hashlock = poseidonHash preimage.value then .ok () else .error .HashlockMismatch

/-- `haveContract(contractId)`: the source returns the constant `Bool(true)`. -/
def haveContract (s : ContractState) (contractId : Nat) : Bool :=
  true

/-- `modifierContractExists(contractId)`: asserts `haveContract(contractId)`.
Dead code: no method of the class invokes it. -/
def modifierContractExists (s : ContractState) (contractId : Nat) : Except HTLCError Unit :=
  if haveContract s contractId then .ok () else .error .ContractNotFound

/-- `assertIsNew()`: asserts `receiver.isEmpty()`. -/
def assertIsNew (s : ContractState) : Except HTLCError Unit :=
  if s.receiver = 0 then .ok () else .error .ContractNotNew

/-- `assertIsNotNew()`: asserts `!receiver.isEmpty()`. -/
def assertIsNotNew (s : ContractState) : Except HTLCError Unit :=
  if s.receiver = 0 then .error .ContractIsNew else .ok ()

/-- `modifierWithdrawable(contractId)`: checks `refundTo == sender`,
`withdrawn == false`, `timelock <= timestamp`.  Dead code: no method of the
class invokes it. -/
def modifierWithdrawable (s : ContractState) (sender now : Nat) : Except HTLCError Unit :=
  if s.refundTo ≠ sender then .error .SenderMismatch
  else if s.withdrawn then .error .AlreadyWithdrawn
  else if s.timelock ≤ now then .ok ()
  else .error .TimelockNotPassed

/-- `modifierRefundable(contractId)`: checks `refundTo == sender`,
`refunded == false`, `withdrawn == false`, `timelock <= timestamp`.
Dead code: no method of the class invokes it. -/
def modifierRefundable (s : ContractState) (sender now : Nat) : Except HTLCError Unit :=
  if s.refundTo ≠ sender then .error .SenderMismatch
  else if s.refunded then .error .AlreadyRefunded
  else if s.withdrawn then .error .AlreadyWithdrawn
  else if s.timelock ≤ now then .ok ()
  else .error .TimelockNotPassed

/-- `newContract(receiver, amount, hashlock, timelock)`.
Source order: `assertIsNew()`, `modifierFundsSent(amount)`, then
`setRefundTo(this.sender)`, `setRecipient(receiver)`, `setHashLock(hashlock)`,
debit the sender's account and credit the contract balance by `amount`
(the sender-side debit lives on the external account and is not part of
this state), emit `LogHTLCNew`, and return the constant `Field(0)` as the
contract id.  Note: the `timelock` argument is used only in the emitted
event; it is neither validated nor written to the `timelock` state field,
and no `amount` state field exists (only the account balance). -/
def newContract (s : ContractState) (sender receiver amount hashlock timelock : Nat) :
    Except HTLCError (ContractState × Nat) :=
  match assertIsNew s with
  | .error e => .error e
  | .ok _ =>
    match modifierFundsSent amount with
    | .error e => .error e
    | .ok _ =>
      .ok ({ s with
              refundTo := sender
              receiver := receiver
              hashlock := hashlock
              balance := s.balance + amount }, 0)

/-- `withdraw(contractId, preimage)`.
Source order: `assertIsNotNew()`, `modifierHashlockMatches(contractId,
preimage)`, `setSecret(preimage)`, then send the entire contract balance to
`receiver` (the recipient's `requireSignature()` attaches the receiver's
signature to that external account update; it does not constrain this
state), emit `LogHTLCWithdraw`, and return `Bool(true)`.  Note: `sender`,
`now` and `contractId` are never consulted, and neither the `withdrawn` nor
the `refunded` flag is read or written. -/
def withdraw (poseidonHash : List Nat → Nat) (s : ContractState)
    (sender now contractId : Nat) (preimage : Secret) :
    Except HTLCError (ContractState × Bool) :=
  match assertIsNotNew s with
  | .error e => .error e
  | .ok _ =>
    match modifierHashlockMatches poseidonHash s.hashlock preimage with
    | .error e => .error e
    | .ok _ =>
      .ok ({ s with preimage := preimage, balance := 0 }, true)

/-- `refund(contractId)`.
Source order: read `timelock`, run `modifierFutureTimelock(timelock)`
(which asserts `timelock > timestamp`), read `refundTo`, send the entire
contract balance to `refundTo`, emit `LogHTLCRefund`, and return
`Bool(true)`.  Note: `sender` and `contractId` are never consulted, the
`withdrawn` / `refunded` flags are neither read nor written, and
`modifierRefundable` is never invoked. -/
def refund (s : ContractState) (sender now contractId : Nat) :
    Except HTLCError (ContractState × Bool) :=
  match modifierFutureTimelock s.timelock now with
  | .error e => .error e
  | .ok _ =>
    .ok ({ s with balance := 0 }, true)

/-- The state an operation leaves behind: the successor state on success,
the unchanged input state when an assertion aborted the transaction. -/
def stateAfter (r : Except HTLCError (ContractState × Bool)) (s : ContractState) :
    ContractState :=
  match r with
  | .ok p => p.1
  | .error _ => s

/-- The write-once fields of a record: `refundTo` (the depositor),
`receiver`, `hashlock` and `timelock` agree between two states. -/
def immutFrame (s t : ContractState) : Prop :=
  t.refundTo = s.refundTo ∧ t.receiver = s.receiver ∧
  t.hashlock = s.hashlock ∧ t.timelock = s.timelock

/-- A sample commitment function for concrete runs: sums the field
elements of the preimage array. -/
def commitDemo (l : List Nat) : Nat :=
  l.foldl (fun a b => a + b) 0

/-- A locked record as the claims picture it: depositor `1`, receiver `2`,
hashlock `42` (= `commitDemo [42]`), balance `100`. -/
def lockedDemo : ContractState :=
  { refundTo := 1, receiver := 2, hashlock := 42, timelock := 0,
    withdrawn := false, refunded := false, preimage := ⟨[0]⟩, balance := 100 }

/-- `lockedDemo` with the deadline `timelock = 5`. -/
def lockedAt5 : ContractState :=
  { lockedDemo with timelock := 5 }

/-- A second locked record for independent runs: depositor `3`, receiver
`4`, hashlock `5` (= `commitDemo [5]`), balance `7`. -/
def lockedDemo9 : ContractState :=
  { refundTo := 3, receiver := 4, hashlock := 5, timelock := 0,
    withdrawn := false, refunded := false, preimage := ⟨[0]⟩, balance := 7 }

/-- C1: the claim says `refund` succeeds only when `now >= timelock` and
fails with `NotYetExpired` when `now < timelock`.  The code's `refund`
instead invokes `modifierFutureTimelock` — the creation-direction guard
`timelock > now` — so the gate is reversed: with the depositor `1` calling
on `lockedAt5` (deadline `5`), refund at `now = 10 >= 5` is rejected, while
refund at `now = 3 < 5` succeeds and empties the balance. -/
theorem refund_gate_reversed :
    refund lockedAt5 1 10 0 = .error .TimelockMustBeFuture ∧
    refund lockedAt5 1 3 0 = .ok ({ lockedAt5 with balance := 0 }, true) := by
  exact ⟨rfl, rfl⟩

/-- C2: the claim says a record with `withdrawn` or `refunded` set is
terminal and any further withdraw/refund fails with `AlreadyFinalized`.
The code never reads either flag in `withdraw` or `refund` (the guards
`modifierWithdrawable` / `modifierRefundable` that do are never invoked):
a withdraw on a record with `withdrawn = true`, and a refund on a record
with `refunded = true`, both succeed and move the balance again. -/
theorem finalized_record_not_terminal :
    withdraw commitDemo { lockedDemo with withdrawn := true } 2 60 0 ⟨[42]⟩ =
      .ok ({ lockedDemo with withdrawn := true, preimage := ⟨[42]⟩, balance := 0 }, true) ∧
    refund { lockedAt5 with refunded := true } 1 3 0 =
      .ok ({ lockedAt5 with refunded := true, balance := 0 }, true) := by
  exact ⟨rfl, rfl⟩

/-- C3: the claim says a successful withdraw stores the secret and sets
`withdrawn = true`, giving `revealedSecret` present iff `withdrawn`.  In
the code a full run — create, then withdraw with the matching preimage
`[42]` — stores the preimage via `setSecret` but leaves `withdrawn =
false`: the flag is never written, so the claimed equivalence fails. -/
theorem withdraw_stores_secret_but_not_flag :
    newContract initState 1 2 100 42 50 = .ok (lockedDemo, 0) ∧
    withdraw commitDemo lockedDemo 2 60 0 ⟨[42]⟩ =
      .ok ({ lockedDemo with preimage := ⟨[42]⟩, balance := 0 }, true) ∧
    ContractState.withdrawn { lockedDemo with preimage := ⟨[42]⟩, balance := 0 } = false := by
  exact ⟨rfl, rfl, rfl⟩

/-- C4: `withdraw` succeeds only when the Poseidon hash of the presented
preimage equals the stored hashlock, and on an existing record a
mismatching preimage is rejected with the hashlock-mismatch assertion,
the transaction aborting with the record unchanged (an `.error` result
performs no state write). -/
theorem withdraw_hashlock_gate (poseidonHash : List Nat → Nat) (s : ContractState)
    (sender now contractId : Nat) (pre : Secret) :
    (∀ t r, withdraw poseidonHash s sender now contractId pre = .ok (t, r) →
      s.hashlock = poseidonHash pre.value) ∧
    (s.receiver ≠ 0 → s.hashlock ≠ poseidonHash pre.value →
      withdraw poseidonHash s sender now contractId pre = .error .HashlockMismatch) := by
  unfold withdraw assertIsNotNew modifierHashlockMatches
  constructor
  · intro t r h
    split_ifs at h <;> simp_all
  · intro hne hmm
    split_ifs <;> simp_all

/-- Witness for `withdraw_hashlock_gate` on `lockedDemo` (hashlock `42`):
the matching preimage `[42]` satisfies the success equation, and the
mismatching preimage `[41]` is rejected with the hashlock-mismatch error. -/
theorem withdraw_hashlock_gate_witness :
    lockedDemo.hashlock = commitDemo (Secret.value ⟨[42]⟩) ∧
    withdraw commitDemo lockedDemo 2 60 0 ⟨[41]⟩ = .error .HashlockMismatch :=
  ⟨(withdraw_hashlock_gate commitDemo lockedDemo 2 60 0 ⟨[42]⟩).1
      { lockedDemo with preimage := ⟨[42]⟩, balance := 0 } true rfl,
   (withdraw_hashlock_gate commitDemo lockedDemo 2 60 0 ⟨[41]⟩).2 (by decide) (by decide)⟩

/-- C5: the claim says refund by any caller other than the depositor fails
with `Unauthorized`.  The code's `refund` never compares `this.sender`
with `refundTo` (the check sits only in the never-invoked
`modifierRefundable`): caller `99`, distinct from depositor `1`, refunds
`lockedAt5` successfully as soon as the timelock guard passes. -/
theorem refund_no_caller_check :
    refund lockedAt5 99 3 0 = .ok ({ lockedAt5 with balance := 0 }, true) := by
  exact rfl

/-- C6: the claim says create succeeds only when the timelock clears a
3-period buffer above `now`, failing with `TimelockTooSoon` otherwise.
The code's `newContract` never reads the network timestamp and never
inspects its `timelock` argument (`modifierFutureTimelock` is not invoked
there): creation succeeds with the same result for every timelock value,
including `0`, which lies below any buffer for every `now`. -/
theorem newContract_no_timelock_guard :
    ∀ timelock, newContract initState 1 2 100 7 timelock =
      .ok ({ initState with refundTo := 1, receiver := 2, hashlock := 7, balance := 100 }, 0) := by
  intro timelock
  exact rfl

/-- C7: the claim says every field, `timelock` included, is stored in the
record at creation.  The code's `newContract` writes `refundTo`,
`receiver` and `hashlock` but never `this.timelock.set(...)`: creating
with timelock `999` leaves the `timelock` state field at its default `0`
(and the locked `amount` exists only as the account balance — the record
has no amount field). -/
theorem newContract_does_not_store_timelock :
    ∃ t, newContract initState 3 4 100 7 999 = .ok (t, 0) ∧ t.timelock = 0 := by
  exact ⟨{ initState with refundTo := 3, receiver := 4, hashlock := 7, balance := 100 }, rfl, rfl⟩

/-- C8: for every state and every input, `withdraw` and `refund` — whether
they succeed or abort — leave the write-once fields `refundTo`
(depositor), `receiver`, `hashlock` and `timelock` unchanged (a successful
run writes only `preimage` and the balance; an aborted one writes
nothing). -/
theorem ops_preserve_immutable_fields (poseidonHash : List Nat → Nat) (s : ContractState)
    (sender now contractId : Nat) (pre : Secret) :
    immutFrame s (stateAfter (withdraw poseidonHash s sender now contractId pre) s) ∧
    immutFrame s (stateAfter (refund s sender now contractId) s) := by
  constructor
  · unfold withdraw assertIsNotNew modifierHashlockMatches
    split_ifs <;> simp [stateAfter, immutFrame]
  · unfold refund modifierFutureTimelock
    split_ifs <;> simp [stateAfter, immutFrame]

/-- C9: the claim says create returns fresh identifiers and operations on
an absent identifier fail with `NotFound`.  The code returns the constant
`Field(0)` from every `newContract`, `haveContract` is constantly `true`,
and no operation consults its `contractId`: after a create that returned
id `0`, a withdraw addressed to the never-issued id `999` succeeds. -/
theorem ids_constant_and_no_notfound :
    newContract initState 3 4 7 5 50 = .ok (lockedDemo9, 0) ∧
    haveContract lockedDemo9 999 = true ∧
    withdraw commitDemo lockedDemo9 4 0 999 ⟨[5]⟩ =
      .ok ({ lockedDemo9 with preimage := ⟨[5]⟩, balance := 0 }, true) := by
  exact ⟨rfl, rfl, rfl⟩

/-- C10: a create with `amount = 0` never succeeds, and on a fresh
contract (empty receiver key) it fails precisely with the
amount-must-be-positive assertion, no record being written. -/
theorem newContract_zero_amount (s : ContractState)
    (sender receiver hashlock timelock : Nat) :
    (∀ r, newContract s sender receiver 0 hashlock timelock ≠ .ok r) ∧
    (s.receiver = 0 → newContract s sender receiver 0 hashlock timelock =
      .error .InvalidAmount) := by
  unfold newContract assertIsNew modifierFundsSent
  constructor
  · intro r h
    split_ifs at h <;> simp_all
  · intro hnew
    split_ifs <;> simp_all

/-- Witness for `newContract_zero_amount`: on the fresh state, creating
with amount `0` returns the invalid-amount error. -/
theorem newContract_zero_amount_witness :
    newContract initState 1 2 0 7 50 = .error .InvalidAmount := by
  exact (newContract_zero_amount initState 1 2 7 50).2 rfl
